import Mathlib

/-!
vteditor: the VTF header record and the `open_dialog_cb` callback.

A shallow embedding of `src/vteditor-application.c`:

* the `VTFHEADER` declaration (lines 32-60) as a list of members, with the
  offsets a C compiler assigns to them under a packed and under a naturally
  aligned layout;
* the callback `open_dialog_cb` (lines 101-152) as a function on an explicit
  program state, with the results of the external calls (file dialog, GLib,
  VTFLib, GDK) supplied by an environment record.

Modelling conventions: bytes are numbers below 256, C strings are
lists of characters without the terminating NUL, the host is little-endian
with 1-byte `char`, 2-byte `short` and 4-byte `int` and `float`.  Undefined
behaviour of the C program is an explicit `Fault`.  The application is taken
to have an active window, and allocation and ownership of the GLib objects
are not part of the model.
-/

namespace Vteditor

/-! ## The `VTFHEADER` declaration -/

/-- Scalar C types occurring in `VTFHEADER`. -/
inductive CType
  | char
  | uchar
  | ushort
  | uint
  | float
  deriving DecidableEq, Repr

/-- Size in bytes of a scalar type. -/
def CType.size : CType → Nat
  | .char => 1
  | .uchar => 1
  | .ushort => 2
  | .uint => 4
  | .float => 4

/-- Members of `struct tagVTFHEADER`, in declaration order. -/
inductive Field
  | signature
  | version
  | headerSize
  | width
  | height
  | flags
  | frames
  | firstFrame
  | padding0
  | reflectivity
  | padding1
  | bumpmapScale
  | highResImageFormat
  | mipmapCount
  | lowResImageFormat
  | lowResImageWidth
  | lowResImageHeight
  | depth
  | padding2
  | numResources
  | padding3
  deriving DecidableEq, Repr

/-- One member of a struct: its name, element type and element count
(1 for a scalar, the array length for an array). -/
structure Member where
  name : Field
  ty : CType
  count : Nat
  deriving DecidableEq, Repr

/-- Bytes occupied by a member. -/
def Member.bytes (m : Member) : Nat := m.ty.size * m.count

/-- The declaration of `VTFHEADER`, lines 32-60. -/
def VTFHEADER_members : List Member :=
  [ ⟨.signature, .char, 4⟩,
    ⟨.version, .uint, 2⟩,
    ⟨.headerSize, .uint, 1⟩,
    ⟨.width, .ushort, 1⟩,
    ⟨.height, .ushort, 1⟩,
    ⟨.flags, .uint, 1⟩,
    ⟨.frames, .ushort, 1⟩,
    ⟨.firstFrame, .ushort, 1⟩,
    ⟨.padding0, .uchar, 4⟩,
    ⟨.reflectivity, .float, 3⟩,
    ⟨.padding1, .uchar, 4⟩,
    ⟨.bumpmapScale, .float, 1⟩,
    ⟨.highResImageFormat, .uint, 1⟩,
    ⟨.mipmapCount, .uchar, 1⟩,
    ⟨.lowResImageFormat, .uint, 1⟩,
    ⟨.lowResImageWidth, .uchar, 1⟩,
    ⟨.lowResImageHeight, .uchar, 1⟩,
    ⟨.depth, .ushort, 1⟩,
    ⟨.padding2, .uchar, 3⟩,
    ⟨.numResources, .uint, 1⟩,
    ⟨.padding3, .uchar, 8⟩ ]

/-- How the compiler lays a struct out: `packed` places every member right
after the previous one; `natural` aligns every scalar to its own size, which
is what the C ABIs do for a declaration without a packing pragma, as the one
in the source. -/
inductive Layout
  | packed
  | natural
  deriving DecidableEq, Repr

/-- Alignment requirement of a scalar type under a layout. -/
def alignment : Layout → CType → Nat
  | .packed, _ => 1
  | .natural, t => t.size

/-- Round `off` up to the next multiple of `a`. -/
def alignUp (off a : Nat) : Nat := (off + a - 1) / a * a

/-- Offsets of the members of a struct, the first free byte being `off`. -/
def layoutFrom (L : Layout) : Nat → List Member → List (Field × Nat)
  | _, [] => []
  | off, m :: ms =>
    (m.name, alignUp off (alignment L m.ty)) ::
      layoutFrom L (alignUp off (alignment L m.ty) + m.bytes) ms

/-- First byte after the last member. -/
def endFrom (L : Layout) : Nat → List Member → Nat
  | off, [] => off
  | off, m :: ms => endFrom L (alignUp off (alignment L m.ty) + m.bytes) ms

/-- Alignment of the struct: the largest alignment of a member. -/
def structAlign (L : Layout) (ms : List Member) : Nat :=
  ms.foldl (fun a m => max a (alignment L m.ty)) 1

/-- Offset of a member of `VTFHEADER`, `offsetof (VTFHEADER, f)`. -/
def offsetOf (L : Layout) (f : Field) : Nat :=
  ((layoutFrom L 0 VTFHEADER_members).lookup f).getD 0

/-- Size of the record, `sizeof (VTFHEADER)`: the end of the last member
rounded up to the alignment of the struct. -/
def sizeofVTFHEADER (L : Layout) : Nat :=
  alignUp (endFrom L 0 VTFHEADER_members) (structAlign L VTFHEADER_members)

/-- Bytes of the record that belong to no member. -/
def implicitPadding (L : Layout) : Nat :=
  sizeofVTFHEADER L - (VTFHEADER_members.map Member.bytes).sum

/-- The offsets of the specification's binary file format contract (its
section 6), which are those of the VTF format as published and as the
comments of the declaration describe it: an 80-byte record. -/
def specOffset : Field → Nat
  | .signature => 0
  | .version => 4
  | .headerSize => 12
  | .width => 16
  | .height => 18
  | .flags => 20
  | .frames => 24
  | .firstFrame => 26
  | .padding0 => 28
  | .reflectivity => 32
  | .padding1 => 44
  | .bumpmapScale => 48
  | .highResImageFormat => 52
  | .mipmapCount => 56
  | .lowResImageFormat => 57
  | .lowResImageWidth => 61
  | .lowResImageHeight => 62
  | .depth => 63
  | .padding2 => 65
  | .numResources => 68
  | .padding3 => 72

/-! ## Reading the record from the file contents -/

/-- One byte of a file. -/
abbrev Byte := Fin 256

/-- The byte at index `i` of the loaded contents.  `g_file_load_contents`
returns the file bytes followed by one NUL byte that is not counted in the
length, so index `length` reads 0. -/
def byteAt (buf : List Byte) (i : Nat) : Nat := (buf.getD i 0).val

/-- Little-endian unsigned integer of `n` bytes starting at `off`. -/
def readLE (buf : List Byte) (off : Nat) : Nat → Nat
  | 0 => 0
  | n + 1 => byteAt buf off + 256 * readLE buf (off + 1) n

/-- Little-endian unsigned 16-bit integer at `off`. -/
def u16le (buf : List Byte) (off : Nat) : Nat := readLE buf off 2

/-- Little-endian unsigned 32-bit integer at `off`. -/
def u32le (buf : List Byte) (off : Nat) : Nat := readLE buf off 4

/-- The value of a `VTFHEADER` object.  The floats are kept as their 32-bit
patterns; the padding members carry no value. -/
structure VTFHEADER where
  signature : List Nat
  version : Nat × Nat
  headerSize : Nat
  width : Nat
  height : Nat
  flags : Nat
  frames : Nat
  firstFrame : Nat
  reflectivity : List Nat
  bumpmapScale : Nat
  highResImageFormat : Nat
  mipmapCount : Nat
  lowResImageFormat : Nat
  lowResImageWidth : Nat
  lowResImageHeight : Nat
  depth : Nat
  numResources : Nat
  deriving DecidableEq, Repr

/-- The object obtained by overlaying the declaration on the contents,
`*(VTFHEADER*)contents` (line 124): every member is read at the offset the
layout gives it. -/
def decodeVTFHEADER (L : Layout) (contents : List Byte) : VTFHEADER where
  signature := (List.range 4).map (fun i => byteAt contents (offsetOf L .signature + i))
  version := (u32le contents (offsetOf L .version), u32le contents (offsetOf L .version + 4))
  headerSize := u32le contents (offsetOf L .headerSize)
  width := u16le contents (offsetOf L .width)
  height := u16le contents (offsetOf L .height)
  flags := u32le contents (offsetOf L .flags)
  frames := u16le contents (offsetOf L .frames)
  firstFrame := u16le contents (offsetOf L .firstFrame)
  reflectivity := (List.range 3).map (fun i => u32le contents (offsetOf L .reflectivity + 4 * i))
  bumpmapScale := u32le contents (offsetOf L .bumpmapScale)
  highResImageFormat := u32le contents (offsetOf L .highResImageFormat)
  mipmapCount := byteAt contents (offsetOf L .mipmapCount)
  lowResImageFormat := u32le contents (offsetOf L .lowResImageFormat)
  lowResImageWidth := byteAt contents (offsetOf L .lowResImageWidth)
  lowResImageHeight := byteAt contents (offsetOf L .lowResImageHeight)
  depth := u16le contents (offsetOf L .depth)
  numResources := u32le contents (offsetOf L .numResources)

/-- Indices of the contents that the copy of line 124 reads: the whole
record, `sizeof (VTFHEADER)` bytes from index 0. -/
def headerReadIndices (L : Layout) : List Nat := List.range (sizeofVTFHEADER L)

/-! ## C strings -/

/-- The C library's `strrchr`, scanning from the left and remembering the
last match: the suffix of `s` that starts at the last occurrence of `c`, or
`none` (the null pointer) when `c` does not occur. -/
def strrchrFrom (c : Char) : List Char → Option (List Char) → Option (List Char)
  | [], last => last
  | x :: xs, last => strrchrFrom c xs (if x = c then some (x :: xs) else last)

/-- The C library's `strrchr (s, c)`. -/
def strrchr (s : List Char) (c : Char) : Option (List Char) := strrchrFrom c s none

/-- The C library's `strcmp` on two strings: 0 when they are equal, otherwise
negative or positive as the first difference orders them. -/
def strcmp : List Char → List Char → Int
  | [], [] => 0
  | [], _ :: _ => -1
  | _ :: _, [] => 1
  | a :: as, b :: bs => if a = b then strcmp as bs else if a < b then -1 else 1

/-- Undefined behaviour the callback can run into. -/
inductive Fault
  | nullDereference
  | readOutOfBounds
  deriving DecidableEq, Repr

/-- `strcmp` applied to a pointer that may be null: reading through the null
pointer is a fault. -/
def strcmpPtr : Option (List Char) → List Char → Except Fault Int
  | none, _ => .error .nullDereference
  | some a, b => .ok (strcmp a b)

/-- The literal `".vtf"` of line 123. -/
def dotVtf : List Char := ['.', 'v', 't', 'f']

/-- Lines 122-123: `strcmp (strrchr (basename, '.'), ".vtf")`. -/
def extensionTest (basename : List Char) : Except Fault Int :=
  strcmpPtr (strrchr basename '.') dotVtf

/-! ## The program state and the external calls -/

/-- The `GdkColorspace` enumeration. -/
inductive Colorspace
  | rgb
  deriving DecidableEq, Repr

/-- The arguments of `gdk_pixbuf_new_from_data`, which describe the pixel
buffer at the address `data` without copying it. -/
structure Pixbuf where
  data : Nat
  colorspace : Colorspace
  has_alpha : Bool
  bits_per_sample : Nat
  width : Nat
  height : Nat
  rowstride : Nat
  deriving DecidableEq, Repr

/-- What the `GtkImage` widget of the window shows. -/
inductive Content
  | empty
  | paintable (texture : Nat)
  | pixbuf (p : Pixbuf)
  deriving DecidableEq, Repr

/-- The texts written with `printf`. -/
inductive Message
  | ceciEstUnVtf
  | signature (bytes : List Nat)
  | version (major minor : Nat)
  | headerSize (n : Nat)
  | width (n : Nat)
  | errorConverting
  deriving DecidableEq, Repr

/-- The calls with an effect outside the callback, in the order they are
made.  Pointers and handles are natural numbers. -/
inductive Event
  | printf (m : Message)
  | vlInitialize
  | vlCreateImage (handle : Nat)
  | vlBindImage (handle : Nat)
  | vlImageLoad (path : List Char) (ok : Bool)
  | vlImageGetWidth
  | vlImageGetHeight
  | vlImageGetFormat
  | vlImageGetData
  | vlImageComputeImageSize (w h : Nat)
  | malloc (size ptr : Nat)
  | vlImageConvert (src dst w h format : Nat) (ok : Bool)
  | free (ptr : Nat)
  | vlGetLastError
  | gdk_pixbuf_new_from_data (p : Pixbuf)
  | gtk_image_set_from_pixbuf (p : Pixbuf)
  | gdk_texture_new_from_file (texture : Option Nat)
  | gtk_image_set_from_paintable (texture : Option Nat)
  deriving DecidableEq, Repr

/-- Whether an event is a call into the VTF library. -/
def Event.isVlCall : Event → Bool
  | .vlInitialize => true
  | .vlCreateImage _ => true
  | .vlBindImage _ => true
  | .vlImageLoad _ _ => true
  | .vlImageGetWidth => true
  | .vlImageGetHeight => true
  | .vlImageGetFormat => true
  | .vlImageGetData => true
  | .vlImageComputeImageSize _ _ => true
  | .vlImageConvert _ _ _ _ _ _ => true
  | .vlGetLastError => true
  | _ => false

/-- Whether an event is an allocation. -/
def Event.isMalloc : Event → Bool
  | .malloc _ _ => true
  | _ => false

/-- Whether an event creates a pixbuf or changes what the widget shows. -/
def Event.isDisplay : Event → Bool
  | .gdk_pixbuf_new_from_data _ => true
  | .gtk_image_set_from_pixbuf _ => true
  | .gtk_image_set_from_paintable _ => true
  | _ => false

/-- The state the callback acts on: what the image widget shows, the bytes
the library has written at the addresses it was given, and the calls made so
far. -/
structure State where
  image : Content
  mem : List (Nat × List Byte)
  trace : List Event
  deriving DecidableEq, Repr

/-- Record calls at the end of the trace. -/
def State.emit (st : State) (evs : List Event) : State :=
  { st with trace := st.trace ++ evs }

/-- What the callback observes of the chosen file. -/
structure GFile where
  /-- The result of `g_file_load_contents`: `none` when it returns `FALSE`. -/
  contents : Option (List Byte)
  /-- The result of `g_file_get_path`. -/
  path : List Char
  /-- The result of `g_file_get_basename`. -/
  basename : List Char
  /-- The result of `gdk_texture_new_from_file`: `none` for `NULL`. -/
  texture : Option Nat
  deriving DecidableEq, Repr

/-- What the VTF library answers during one run of the callback. -/
structure VTFLib where
  /-- The handle `vlCreateImage` stores in `uiVTFImage`. -/
  handle : Nat
  /-- The result of `vlImageLoad`. -/
  loadOk : Bool
  /-- The result of `vlImageGetWidth`. -/
  width : Nat
  /-- The result of `vlImageGetHeight`. -/
  height : Nat
  /-- The result of `vlImageGetFormat`. -/
  format : Nat
  /-- The result of `vlImageGetData (0, 0, 0, 0)`. -/
  data : Nat
  /-- The result of `vlImageConvert`: `none` for `vlFalse`, otherwise the
  bytes it has written to the destination. -/
  converted : Option (List Byte)
  deriving DecidableEq, Repr

/-- The environment of one run of the callback. -/
structure Env where
  /-- The result of `gtk_file_dialog_open_finish`: `none` for `NULL`. -/
  dialog : Option GFile
  /-- The answers of the VTF library. -/
  lib : VTFLib
  /-- The pointer `malloc` returns. -/
  mallocPtr : Nat
  deriving DecidableEq, Repr

/-- The library's `vlImageComputeImageSize (w, h, 1, 1, IMAGE_FORMAT_RGB888)`:
three bytes for each pixel of one `w` by `h` image, as a 32-bit `vlUInt`. -/
def vlImageComputeImageSize (w h : Nat) : Nat := (3 * w * h) % 2 ^ 32

/-! ## The callback -/

/-- Lines 124-145, the branch taken for a `.vtf` file.  The calls in one
argument list are recorded from left to right; C leaves their order open and
no statement below depends on it. -/
def vtfBranch (L : Layout) (env : Env) (gfile : GFile) (contents : List Byte)
    (st : State) : Except Fault State :=
  -- line 124: the copy reads `sizeof (VTFHEADER)` bytes of a buffer that has
  -- `length + 1` of them
  if contents.length + 1 < sizeofVTFHEADER L then .error .readOutOfBounds
  else
    let vtfHeader := decodeVTFHEADER L contents
    let dst := env.mallocPtr
    let st1 := st.emit
      [ .printf .ceciEstUnVtf,
        .printf (.signature vtfHeader.signature),
        .printf (.version vtfHeader.version.1 vtfHeader.version.2),
        .printf (.headerSize vtfHeader.headerSize),
        .printf (.width vtfHeader.width),
        .vlInitialize,
        .vlCreateImage env.lib.handle,
        .vlBindImage env.lib.handle,
        -- line 134: the result of `vlImageLoad` is not looked at
        .vlImageLoad gfile.path env.lib.loadOk,
        -- line 136
        .vlImageGetWidth,
        .vlImageGetHeight,
        .vlImageComputeImageSize env.lib.width env.lib.height,
        .malloc (vlImageComputeImageSize env.lib.width env.lib.height) dst,
        -- line 137
        .vlImageGetData,
        .vlImageGetWidth,
        .vlImageGetHeight,
        .vlImageGetFormat,
        .vlImageConvert env.lib.data dst env.lib.width env.lib.height env.lib.format
          env.lib.converted.isSome ]
    match env.lib.converted with
    | none =>
      -- lines 139-142
      .ok (st1.emit [.free dst, .vlGetLastError, .printf .errorConverting])
    | some bytes =>
      -- lines 144-145
      let pixbuf : Pixbuf :=
        { data := dst, colorspace := .rgb, has_alpha := false, bits_per_sample := 8,
          width := vtfHeader.width, height := vtfHeader.height,
          rowstride := 3 * vtfHeader.width }
      .ok { image := .pixbuf pixbuf,
            mem := (dst, bytes) :: st1.mem,
            trace := st1.trace ++
              [.gdk_pixbuf_new_from_data pixbuf, .gtk_image_set_from_pixbuf pixbuf] }

/-- What `gtk_image_set_from_paintable` leaves in the widget: a null
paintable clears it. -/
def paintableContent : Option Nat → Content
  | none => .empty
  | some t => .paintable t

/-- Lines 148-149, the branch taken for any other file. -/
def genericBranch (gfile : GFile) (st : State) : Except Fault State :=
  .ok { image := paintableContent gfile.texture,
        mem := st.mem,
        trace := st.trace ++
          [.gdk_texture_new_from_file gfile.texture,
           .gtk_image_set_from_paintable gfile.texture] }

/-- The callback `open_dialog_cb`, lines 101-152, compiled with layout `L`. -/
def open_dialog_cb (L : Layout) (env : Env) (st : State) : Except Fault State :=
  match env.dialog with
  | none => .ok st
  | some gfile =>
    match gfile.contents with
    | none => .ok st
    | some contents =>
      match extensionTest gfile.basename with
      | .error e => .error e
      | .ok r =>
        if r = 0 then vtfBranch L env gfile contents st
        else genericBranch gfile st

/-- The calls a run has added to the trace. -/
def newEvents (before after : State) : List Event :=
  after.trace.drop before.trace.length

/-- The calls of lines 125-137, up to and including `vlImageConvert`, as
`vtfBranch` records them. -/
def vtfPrelude (L : Layout) (env : Env) (gfile : GFile) (contents : List Byte) : List Event :=
  [ .printf .ceciEstUnVtf,
    .printf (.signature (decodeVTFHEADER L contents).signature),
    .printf (.version (decodeVTFHEADER L contents).version.1
      (decodeVTFHEADER L contents).version.2),
    .printf (.headerSize (decodeVTFHEADER L contents).headerSize),
    .printf (.width (decodeVTFHEADER L contents).width),
    .vlInitialize,
    .vlCreateImage env.lib.handle,
    .vlBindImage env.lib.handle,
    .vlImageLoad gfile.path env.lib.loadOk,
    .vlImageGetWidth,
    .vlImageGetHeight,
    .vlImageComputeImageSize env.lib.width env.lib.height,
    .malloc (vlImageComputeImageSize env.lib.width env.lib.height) env.mallocPtr,
    .vlImageGetData,
    .vlImageGetWidth,
    .vlImageGetHeight,
    .vlImageGetFormat,
    .vlImageConvert env.lib.data env.mallocPtr env.lib.width env.lib.height env.lib.format
      env.lib.converted.isSome ]

/-- The pixbuf of line 144. -/
def headerPixbuf (L : Layout) (env : Env) (contents : List Byte) : Pixbuf :=
  { data := env.mallocPtr, colorspace := .rgb, has_alpha := false, bits_per_sample := 8,
    width := (decodeVTFHEADER L contents).width,
    height := (decodeVTFHEADER L contents).height,
    rowstride := 3 * (decodeVTFHEADER L contents).width }

/-- Whether an event is a call of `free`. -/
def Event.isFree : Event → Bool
  | .free _ => true
  | _ => false

/-- The signature of a VTF file, the bytes of "VTF" and a NUL. -/
def vtfSignature : List Nat := [86, 84, 70, 0]

/-- Whether a 16-bit value is a power of two. -/
def isPowerOfTwo (n : Nat) : Bool := (List.range 16).any (fun k => n == 2 ^ k)

/-- The validation the specification asks of a header reader (its section
4.2): at least 80 bytes, the signature, and a width and a height that are
powers of two.  The callback has no such test; this predicate only serves to
pick the inputs the specification calls malformed. -/
def specHeaderValid (contents : List Byte) : Bool :=
  decide (80 ≤ contents.length) &&
    decide ((List.range 4).map (byteAt contents) = vtfSignature) &&
    isPowerOfTwo (u16le contents 16) && isPowerOfTwo (u16le contents 18)

/-- The members declared before `lowResImageFormat`. -/
def fieldsBeforeLowRes : List Field :=
  [.signature, .version, .headerSize, .width, .height, .flags, .frames, .firstFrame,
   .padding0, .reflectivity, .padding1, .bumpmapScale, .highResImageFormat, .mipmapCount]

/-! ## Sample inputs -/

/-- An initial state: the widget shows texture 7, nothing has been called. -/
def st0 : State := { image := .paintable 7, mem := [], trace := [] }

/-- Answers of a library that loads and converts a 4 by 2 image. -/
def libOk : VTFLib :=
  { handle := 1, loadOk := true, width := 4, height := 2, format := 2, data := 4096,
    converted := some (List.replicate 24 255) }

/-- A well-formed VTF 7.2 file: the 80-byte header of a 4 by 2 RGB888 texture
(`lowResImageFormat` 13 at bytes 57-60) followed by 24 bytes of pixels. -/
def sampleVtf : List Byte :=
  [86, 84, 70, 0,  7, 0, 0, 0,  2, 0, 0, 0,  80, 0, 0, 0,
   4, 0,  2, 0,  0, 0, 0, 0,  1, 0,  0, 0,  0, 0, 0, 0,
   0, 0, 128, 63,  0, 0, 128, 63,  0, 0, 128, 63,  0, 0, 0, 0,
   0, 0, 128, 63,  2, 0, 0, 0,  1,  13, 0, 0, 0,  4,  2,  1, 0,
   0, 0, 0,  0, 0, 0, 0,  0, 0, 0, 0, 0, 0, 0, 0] ++ List.replicate 24 9

/-- The file `a.vtf` holding `sampleVtf`. -/
def fileVtf : GFile :=
  { contents := some sampleVtf, path := "/tmp/a.vtf".toList,
    basename := ['a', '.', 'v', 't', 'f'], texture := none }

/-- A run on `a.vtf` in which every call succeeds. -/
def envVtf : Env := { dialog := some fileVtf, lib := libOk, mallocPtr := 8192 }

/-- The sample file with the first signature byte and the width changed: it
starts with "XTF" and declares a width of 3. -/
def badVtf : List Byte := (sampleVtf.set 0 88).set 16 3

/-- A run on a `.vtf` file holding `badVtf`, every library call succeeding. -/
def envBad : Env :=
  { dialog := some { fileVtf with contents := some badVtf }, lib := libOk, mallocPtr := 8192 }

/-- Answers of a library whose `vlImageLoad` has failed: no image is bound,
the dimensions are 0, the data pointer is null and the conversion fails. -/
def libLoadFails : VTFLib :=
  { handle := 1, loadOk := false, width := 0, height := 0, format := 0, data := 0,
    converted := none }

/-- A run on `a.vtf` in which `vlImageLoad` fails. -/
def envLoadFails : Env := { dialog := some fileVtf, lib := libLoadFails, mallocPtr := 8192 }

/-- The file `notes.txt`, which the texture loader rejects. -/
def fileTxt : GFile :=
  { contents := some [104, 105, 10], path := "/tmp/notes.txt".toList,
    basename := "notes.txt".toList, texture := none }

/-- A run on `notes.txt`. -/
def envTxt : Env := { dialog := some fileTxt, lib := libOk, mallocPtr := 8192 }

/-- A run on `a.vtf`, whose header says 4 by 2, in which the library reports
a 1 by 1 image and converts it. -/
def envMismatch : Env :=
  { dialog := some fileVtf,
    lib := { libOk with width := 1, height := 1, converted := some [1, 2, 3] },
    mallocPtr := 8192 }

/-- A file whose header declares 65535 by 65535 pixels. -/
def hugeVtf : List Byte := (((sampleVtf.set 16 255).set 17 255).set 18 255).set 19 255

/-! ## Lemmas on the C string functions -/

theorem strcmp_eq_zero_iff (a b : List Char) : strcmp a b = 0 ↔ a = b := by
  induction a generalizing b with
  | nil => cases b <;> simp [strcmp]
  | cons x xs ih =>
    cases b with
    | nil => simp [strcmp]
    | cons y ys =>
      by_cases hxy : x = y
      · simp [strcmp, hxy, ih]
      · by_cases hlt : x < y <;> simp [strcmp, hxy, hlt]

theorem strrchrFrom_of_not_mem (c : Char) (s : List Char) (last : Option (List Char))
    (h : c ∉ s) : strrchrFrom c s last = last := by
  induction s generalizing last with
  | nil => rfl
  | cons x xs ih =>
    have hx : x ≠ c := fun e => h (by simp [e])
    have hxs : c ∉ xs := fun m => h (List.mem_cons_of_mem _ m)
    simp [strrchrFrom, hx, ih _ hxs]

theorem strrchrFrom_last (c : Char) (pre suf : List Char) (last : Option (List Char))
    (h : c ∉ suf) : strrchrFrom c (pre ++ c :: suf) last = some (c :: suf) := by
  induction pre generalizing last with
  | nil => simp [strrchrFrom, strrchrFrom_of_not_mem c suf _ h]
  | cons x xs ih => simp [strrchrFrom, ih]

theorem strrchr_last (c : Char) (pre suf : List Char) (h : c ∉ suf) :
    strrchr (pre ++ c :: suf) c = some (c :: suf) :=
  strrchrFrom_last c pre suf none h

theorem strrchr_of_not_mem (c : Char) (s : List Char) (h : c ∉ s) : strrchr s c = none :=
  strrchrFrom_of_not_mem c s none h

theorem exists_last_occurrence (c : Char) (s : List Char) (h : c ∈ s) :
    ∃ pre suf, s = pre ++ c :: suf ∧ c ∉ suf := by
  induction s with
  | nil => cases h
  | cons x xs ih =>
    by_cases hxs : c ∈ xs
    · obtain ⟨pre, suf, he, hn⟩ := ih hxs
      exact ⟨x :: pre, suf, by simp [he], hn⟩
    · have hx : c = x := by
        rcases List.mem_cons.1 h with h1 | h1
        · exact h1
        · exact absurd h1 hxs
      exact ⟨[], xs, by simp [hx], hxs⟩

theorem sample_values :
    sampleVtf.length = 104 ∧
    decodeVTFHEADER .packed sampleVtf = decodeVTFHEADER .packed (sampleVtf.take 80) ∧
    (decodeVTFHEADER .packed sampleVtf).signature = vtfSignature ∧
    (decodeVTFHEADER .packed sampleVtf).version = (7, 2) ∧
    (decodeVTFHEADER .packed sampleVtf).headerSize = 80 ∧
    (decodeVTFHEADER .packed sampleVtf).depth = 1 ∧
    specHeaderValid sampleVtf = true ∧
    strrchr "x.vtf.bak".toList '.' = some ".bak".toList ∧
    extensionTest "a.VTF".toList = .ok (-1) ∧
    extensionTest "a.png".toList = .ok (-1) ∧
    extensionTest "a.vtf".toList = .ok 0 := by
  refine ⟨by decide, by decide, by decide, by decide, by decide, by decide, by decide,
    by decide, rfl, rfl, rfl⟩

theorem extensionTest_of_last_dot (pre suf : List Char) (h : '.' ∉ suf) :
    extensionTest (pre ++ '.' :: suf) = .ok (strcmp ('.' :: suf) dotVtf) := by
  simp [extensionTest, strrchr_last '.' pre suf h, strcmpPtr]

theorem extensionTest_dotVtf (pre : List Char) : extensionTest (pre ++ dotVtf) = .ok 0 := by
  have h : ('.' : Char) ∉ ['v', 't', 'f'] := by decide
  have := extensionTest_of_last_dot pre ['v', 't', 'f'] h
  rw [show pre ++ dotVtf = pre ++ '.' :: ['v', 't', 'f'] from rfl, this]
  rfl

theorem newEvents_append (st : State) (im : Content) (m : List (Nat × List Byte))
    (evs : List Event) :
    newEvents st { image := im, mem := m, trace := st.trace ++ evs } = evs := by
  simp [newEvents]

/-! ## Format sniffing -/

/-- C1. Format sniffing: for a basename `pre ++ '.' :: suf` whose last dot
starts the suffix `'.' :: suf`, the extension test succeeds and is zero
exactly when that suffix is the string ".vtf"; when it is, the callback is
the VTF branch (whose runs start with calls into the VTF library), and when
it is not, the callback returns after `gdk_texture_new_from_file` and
`gtk_image_set_from_paintable` only, none of them a VTF library call. -/
theorem C1_format_sniffing (L : Layout) (env : Env) (st : State) (gfile : GFile)
    (contents : List Byte) (pre suf : List Char)
    (hd : env.dialog = some gfile) (hc : gfile.contents = some contents)
    (hb : gfile.basename = pre ++ '.' :: suf) (hs : '.' ∉ suf) :
    (∃ r, extensionTest gfile.basename = .ok r ∧ (r = 0 ↔ '.' :: suf = dotVtf)) ∧
    ('.' :: suf = dotVtf →
      open_dialog_cb L env st = vtfBranch L env gfile contents st ∧
      ∀ st', open_dialog_cb L env st = .ok st' → Event.vlInitialize ∈ newEvents st st') ∧
    ('.' :: suf ≠ dotVtf →
      ∃ st', open_dialog_cb L env st = .ok st' ∧
        newEvents st st' =
          [.gdk_texture_new_from_file gfile.texture,
           .gtk_image_set_from_paintable gfile.texture] ∧
        ∀ e ∈ newEvents st st', e.isVlCall = false) := by
  have ht := extensionTest_of_last_dot pre suf hs
  rw [← hb] at ht
  refine ⟨⟨_, ht, strcmp_eq_zero_iff _ _⟩, ?_, ?_⟩
  · intro heq
    have h0 : strcmp ('.' :: suf) dotVtf = 0 := (strcmp_eq_zero_iff _ _).2 heq
    have hrun : open_dialog_cb L env st = vtfBranch L env gfile contents st := by
      simp [open_dialog_cb, hd, hc, ht, h0]
    refine ⟨hrun, ?_⟩
    intro st' hok
    rw [hrun] at hok
    unfold vtfBranch at hok
    split at hok
    · cases hok
    · cases hconv : env.lib.converted with
      | none =>
        simp only [hconv] at hok
        cases hok
        simp [newEvents, State.emit]
      | some bytes =>
        simp only [hconv] at hok
        cases hok
        simp [newEvents, State.emit]
  · intro hne
    have h0 : strcmp ('.' :: suf) dotVtf ≠ 0 := fun h => hne ((strcmp_eq_zero_iff _ _).1 h)
    have hrun : open_dialog_cb L env st =
        .ok { image := paintableContent gfile.texture, mem := st.mem,
              trace := st.trace ++
                [.gdk_texture_new_from_file gfile.texture,
                 .gtk_image_set_from_paintable gfile.texture] } := by
      simp [open_dialog_cb, hd, hc, ht, h0, genericBranch]
    refine ⟨_, hrun, ?_, ?_⟩
    · simp [newEvents]
    · simp [newEvents, Event.isVlCall]

/-- Witness of C1 on `x.vtf.bak`, which goes down the generic branch. -/
theorem C1_format_sniffing_witness :
    ∃ st', open_dialog_cb .natural
        { dialog := some { fileVtf with basename := "x.vtf.bak".toList },
          lib := libOk, mallocPtr := 8192 } st0 = .ok st' ∧
      newEvents st0 st' =
        [.gdk_texture_new_from_file none, .gtk_image_set_from_paintable none] ∧
      ∀ e ∈ newEvents st0 st', e.isVlCall = false :=
  (C1_format_sniffing .natural
    { dialog := some { fileVtf with basename := "x.vtf.bak".toList },
      lib := libOk, mallocPtr := 8192 } st0
    { fileVtf with basename := "x.vtf.bak".toList } sampleVtf
    "x.vtf".toList "bak".toList rfl rfl rfl (by decide)).2.2 (by decide)

/-- C2. A basename without a dot: `strrchr` returns the null pointer and the
`strcmp` of line 123 reads through it, so the callback faults instead of
taking the generic branch. -/
theorem C2_missing_extension_faults (L : Layout) (env : Env) (st : State) (gfile : GFile)
    (contents : List Byte)
    (hd : env.dialog = some gfile) (hc : gfile.contents = some contents)
    (hb : '.' ∉ gfile.basename) :
    open_dialog_cb L env st = .error .nullDereference := by
  simp [open_dialog_cb, hd, hc, extensionTest, strrchr_of_not_mem '.' _ hb, strcmpPtr]

/-- Witness of C2 on the file `README`. -/
theorem C2_missing_extension_faults_witness :
    open_dialog_cb .natural
      { dialog := some { fileVtf with basename := "README".toList },
        lib := libOk, mallocPtr := 8192 } st0 = .error .nullDereference :=
  C2_missing_extension_faults .natural
    { dialog := some { fileVtf with basename := "README".toList },
      lib := libOk, mallocPtr := 8192 } st0
    { fileVtf with basename := "README".toList } sampleVtf rfl rfl (by decide)

/-! ## The VTF branch -/

theorem open_dialog_cb_vtf (L : Layout) (env : Env) (st : State) (gfile : GFile)
    (contents : List Byte) (pre : List Char)
    (hd : env.dialog = some gfile) (hc : gfile.contents = some contents)
    (hb : gfile.basename = pre ++ dotVtf) :
    open_dialog_cb L env st = vtfBranch L env gfile contents st := by
  simp [open_dialog_cb, hd, hc, hb, extensionTest_dotVtf]

theorem vtfBranch_convert_fails (L : Layout) (env : Env) (st : State) (gfile : GFile)
    (contents : List Byte) (hsize : sizeofVTFHEADER L ≤ contents.length + 1)
    (hconv : env.lib.converted = none) :
    vtfBranch L env gfile contents st =
      .ok { image := st.image, mem := st.mem,
            trace := st.trace ++ (vtfPrelude L env gfile contents ++
              [.free env.mallocPtr, .vlGetLastError, .printf .errorConverting]) } := by
  have hlt : ¬ contents.length + 1 < sizeofVTFHEADER L := by omega
  simp [vtfBranch, hlt, hconv, State.emit, vtfPrelude]

theorem vtfBranch_convert_succeeds (L : Layout) (env : Env) (st : State) (gfile : GFile)
    (contents bytes : List Byte) (hsize : sizeofVTFHEADER L ≤ contents.length + 1)
    (hconv : env.lib.converted = some bytes) :
    vtfBranch L env gfile contents st =
      .ok { image := .pixbuf (headerPixbuf L env contents),
            mem := (env.mallocPtr, bytes) :: st.mem,
            trace := st.trace ++ (vtfPrelude L env gfile contents ++
              [.gdk_pixbuf_new_from_data (headerPixbuf L env contents),
               .gtk_image_set_from_pixbuf (headerPixbuf L env contents)]) } := by
  have hlt : ¬ contents.length + 1 < sizeofVTFHEADER L := by omega
  simp [vtfBranch, hlt, hconv, State.emit, vtfPrelude, headerPixbuf]

/-- C6. Conversion failure: when `vlImageConvert` returns failure on a
`.vtf` file, the callback returns with the widget showing what it showed
before; the calls it has made contain exactly one `free`, that of the pointer
`malloc` returned and that was passed to the conversion, no `free` follows it,
no pixbuf is created and no call changes the widget. -/
theorem C6_conversion_failure (L : Layout) (env : Env) (st : State) (gfile : GFile)
    (contents : List Byte) (pre : List Char)
    (hd : env.dialog = some gfile) (hc : gfile.contents = some contents)
    (hb : gfile.basename = pre ++ dotVtf)
    (hsize : sizeofVTFHEADER L ≤ contents.length + 1)
    (hconv : env.lib.converted = none) :
    ∃ st', open_dialog_cb L env st = .ok st' ∧
      st'.image = st.image ∧
      (newEvents st st').filter Event.isFree = [.free env.mallocPtr] ∧
      (∃ before after, newEvents st st' = before ++ .free env.mallocPtr :: after ∧
        .malloc (vlImageComputeImageSize env.lib.width env.lib.height) env.mallocPtr ∈ before ∧
        .vlImageConvert env.lib.data env.mallocPtr env.lib.width env.lib.height
          env.lib.format false ∈ before ∧
        ∀ e ∈ after, e.isFree = false) ∧
      ∀ e ∈ newEvents st st', e.isDisplay = false := by
  refine ⟨_, (open_dialog_cb_vtf L env st gfile contents pre hd hc hb).trans
    (vtfBranch_convert_fails L env st gfile contents hsize hconv), rfl, ?_, ?_, ?_⟩
  · simp [newEvents, vtfPrelude, Event.isFree]
  · refine ⟨vtfPrelude L env gfile contents, [.vlGetLastError, .printf .errorConverting],
      ?_, ?_, ?_, ?_⟩
    · simp [newEvents]
    · simp [vtfPrelude]
    · simp [vtfPrelude, hconv]
    · simp [Event.isFree]
  · simp [newEvents, vtfPrelude, Event.isDisplay]

/-- Witness of C6: `a.vtf` with a library whose conversion fails. -/
theorem C6_conversion_failure_witness :
    ∃ st', open_dialog_cb .natural
        { envVtf with lib := { libOk with converted := none } } st0 = .ok st' ∧
      st'.image = st0.image ∧
      (newEvents st0 st').filter Event.isFree = [.free 8192] :=
  let ⟨st', h1, h2, h3, _⟩ := C6_conversion_failure .natural
    { envVtf with lib := { libOk with converted := none } } st0 fileVtf sampleVtf
    ['a'] rfl rfl rfl (by decide) rfl
  ⟨st', h1, h2, h3⟩

/-- C7. Successful decode: when `vlImageConvert` succeeds on a `.vtf` file,
the widget shows a pixbuf over the pointer the conversion wrote to (the memory
there holds the converted bytes), with the width and the height of the file
header (the 16-bit values at bytes 16 and 18), row stride three times the
header width, 8 bits per sample, RGB colorspace and no alpha. -/
theorem C7_successful_decode (L : Layout) (env : Env) (st : State) (gfile : GFile)
    (contents bytes : List Byte) (pre : List Char)
    (hd : env.dialog = some gfile) (hc : gfile.contents = some contents)
    (hb : gfile.basename = pre ++ dotVtf)
    (hsize : sizeofVTFHEADER L ≤ contents.length + 1)
    (hconv : env.lib.converted = some bytes) :
    ∃ st' pb, open_dialog_cb L env st = .ok st' ∧
      st'.image = .pixbuf pb ∧
      .gtk_image_set_from_pixbuf pb ∈ newEvents st st' ∧
      .vlImageConvert env.lib.data pb.data env.lib.width env.lib.height env.lib.format true
        ∈ newEvents st st' ∧
      st'.mem.lookup pb.data = some bytes ∧
      pb.width = (decodeVTFHEADER L contents).width ∧
      pb.height = (decodeVTFHEADER L contents).height ∧
      pb.width = u16le contents 16 ∧
      pb.height = u16le contents 18 ∧
      pb.rowstride = 3 * (decodeVTFHEADER L contents).width ∧
      pb.bits_per_sample = 8 ∧
      pb.colorspace = .rgb ∧
      pb.has_alpha = false := by
  refine ⟨_, headerPixbuf L env contents,
    (open_dialog_cb_vtf L env st gfile contents pre hd hc hb).trans
      (vtfBranch_convert_succeeds L env st gfile contents bytes hsize hconv),
    rfl, ?_, ?_, ?_, rfl, rfl, ?_, ?_, rfl, rfl, rfl, rfl⟩
  · simp [newEvents]
  · simp [newEvents, vtfPrelude, headerPixbuf, hconv]
  · simp [headerPixbuf, List.lookup]
  · cases L <;> rfl
  · cases L <;> rfl

/-- Witness of C7: `a.vtf`, a 4 by 2 texture, with a library that converts. -/
theorem C7_successful_decode_witness :
    ∃ st' pb, open_dialog_cb .natural envVtf st0 = .ok st' ∧ st'.image = .pixbuf pb ∧
      pb.width = 4 ∧ pb.height = 2 ∧ pb.rowstride = 12 :=
  let ⟨st', pb, h1, h2, _, _, _, _, _, h8, h9, h10, _⟩ := C7_successful_decode .natural
    envVtf st0 fileVtf sampleVtf (List.replicate 24 255) ['a'] rfl rfl rfl (by decide) rfl
  ⟨st', pb, h1, h2, h8.trans (by decide), h9.trans (by decide), h10.trans (by decide)⟩

/-- C5. Load failure: the result of `vlImageLoad` is not looked at.  On a
`.vtf` file whose load fails the callback goes on: after the failed load it
queries the library, allocates the destination buffer and calls the
conversion, and when that conversion reports success the pixbuf is handed to
the widget. -/
theorem C5_load_failure_ignored (L : Layout) (env : Env) (st : State) (gfile : GFile)
    (contents : List Byte) (pre : List Char)
    (hd : env.dialog = some gfile) (hc : gfile.contents = some contents)
    (hb : gfile.basename = pre ++ dotVtf)
    (hsize : sizeofVTFHEADER L ≤ contents.length + 1)
    (hload : env.lib.loadOk = false) :
    ∃ st', open_dialog_cb L env st = .ok st' ∧
      (∃ before after,
        newEvents st st' = before ++ .vlImageLoad gfile.path false :: after ∧
        .vlImageGetWidth ∈ after ∧ .vlImageGetHeight ∈ after ∧
        .vlImageGetFormat ∈ after ∧ .vlImageGetData ∈ after ∧
        .malloc (vlImageComputeImageSize env.lib.width env.lib.height) env.mallocPtr ∈ after ∧
        .vlImageConvert env.lib.data env.mallocPtr env.lib.width env.lib.height
          env.lib.format env.lib.converted.isSome ∈ after) ∧
      (∀ bytes, env.lib.converted = some bytes →
        st'.image = .pixbuf (headerPixbuf L env contents)) := by
  have hrun := open_dialog_cb_vtf L env st gfile contents pre hd hc hb
  cases hconv : env.lib.converted with
  | none =>
    refine ⟨_, hrun.trans (vtfBranch_convert_fails L env st gfile contents hsize hconv),
      ⟨(vtfPrelude L env gfile contents).take 8,
       (vtfPrelude L env gfile contents).drop 9 ++
         [.free env.mallocPtr, .vlGetLastError, .printf .errorConverting], ?_⟩, ?_⟩
    · simp [newEvents, vtfPrelude, hload, hconv]
    · intro bytes hb2; cases hb2
  | some bytes =>
    refine ⟨_, hrun.trans (vtfBranch_convert_succeeds L env st gfile contents bytes hsize hconv),
      ⟨(vtfPrelude L env gfile contents).take 8,
       (vtfPrelude L env gfile contents).drop 9 ++
         [.gdk_pixbuf_new_from_data (headerPixbuf L env contents),
          .gtk_image_set_from_pixbuf (headerPixbuf L env contents)], ?_⟩, ?_⟩
    · simp [newEvents, vtfPrelude, hload, hconv]
    · intro _ _; rfl

/-- Witness of C5: `a.vtf` with a library whose load fails; a buffer of 0
bytes is allocated and the conversion is called on the null data pointer. -/
theorem C5_load_failure_ignored_witness :
    ∃ st', open_dialog_cb .natural envLoadFails st0 = .ok st' ∧
      ∃ before after,
        newEvents st0 st' = before ++ .vlImageLoad fileVtf.path false :: after ∧
        .malloc 0 8192 ∈ after ∧ .vlImageConvert 0 8192 0 0 0 false ∈ after :=
  let ⟨st', h1, ⟨before, after, h2, _, _, _, _, h7, h8⟩, _⟩ :=
    C5_load_failure_ignored .natural envLoadFails st0 fileVtf sampleVtf ['a']
      rfl rfl rfl (by decide) rfl
  ⟨st', h1, before, after, h2, h7, h8⟩

/-! ## The content of the widget -/

theorem display_unchanged_on_checked_failure (L : Layout) (env : Env) (st : State) :
    (env.dialog = none → open_dialog_cb L env st = .ok st) ∧
    (∀ gfile, env.dialog = some gfile → gfile.contents = none →
      open_dialog_cb L env st = .ok st) ∧
    (∀ gfile contents pre, env.dialog = some gfile → gfile.contents = some contents →
      gfile.basename = pre ++ dotVtf → sizeofVTFHEADER L ≤ contents.length + 1 →
      env.lib.converted = none →
      ∃ st', open_dialog_cb L env st = .ok st' ∧ st'.image = st.image) := by
  refine ⟨?_, ?_, ?_⟩
  · intro h; simp [open_dialog_cb, h]
  · intro gfile h1 h2; simp [open_dialog_cb, h1, h2]
  · intro gfile contents pre hd hc hb hsize hconv
    exact ⟨_, (open_dialog_cb_vtf L env st gfile contents pre hd hc hb).trans
      (vtfBranch_convert_fails L env st gfile contents hsize hconv), rfl⟩

/-- C8. The generic branch does not test the result of
`gdk_texture_new_from_file`: when the loader fails and returns no texture,
the null paintable is handed to `gtk_image_set_from_paintable` and the widget
is cleared, so a widget that showed something no longer shows it. -/
theorem C8_texture_failure_clears_display (L : Layout) (env : Env) (st : State)
    (gfile : GFile) (contents : List Byte) (pre suf : List Char)
    (hd : env.dialog = some gfile) (hc : gfile.contents = some contents)
    (hb : gfile.basename = pre ++ '.' :: suf) (hs : '.' ∉ suf)
    (hne : '.' :: suf ≠ dotVtf) (htex : gfile.texture = none) :
    ∃ st', open_dialog_cb L env st = .ok st' ∧
      .gtk_image_set_from_paintable none ∈ newEvents st st' ∧
      st'.image = .empty ∧
      (st.image ≠ .empty → st'.image ≠ st.image) := by
  have ht := extensionTest_of_last_dot pre suf hs
  rw [← hb] at ht
  have h0 : strcmp ('.' :: suf) dotVtf ≠ 0 := fun h => hne ((strcmp_eq_zero_iff _ _).1 h)
  have hrun : open_dialog_cb L env st =
      .ok { image := .empty, mem := st.mem,
            trace := st.trace ++
              [.gdk_texture_new_from_file none, .gtk_image_set_from_paintable none] } := by
    simp [open_dialog_cb, hd, hc, ht, h0, genericBranch, htex, paintableContent]
  refine ⟨_, hrun, ?_, rfl, ?_⟩
  · simp [newEvents]
  · intro h e; exact h e.symm

/-- Witness of C8: `notes.txt` opened while the widget shows texture 7. -/
theorem C8_texture_failure_clears_display_witness :
    st0.image = .paintable 7 ∧
    ∃ st', open_dialog_cb .natural envTxt st0 = .ok st' ∧ st'.image = .empty ∧
      st'.image ≠ st0.image :=
  let ⟨st', h1, _, h3, h4⟩ := C8_texture_failure_clears_display .natural envTxt st0 fileTxt
    [104, 105, 10] "notes".toList "txt".toList rfl rfl rfl (by decide) (by decide) rfl
  ⟨rfl, st', h1, h3, h4 (by decide)⟩

/-! ## The header -/

/-- C3, counterexample. The file `badVtf` is malformed in the sense of the
specification (it starts with "XTF" and declares a width of 3), yet the
callback reads its header, calls the imaging library and hands a pixbuf of
width 3 to the widget. -/
theorem C3_counterexample :
    specHeaderValid badVtf = false ∧
    (decodeVTFHEADER .natural badVtf).signature ≠ vtfSignature ∧
    isPowerOfTwo (decodeVTFHEADER .natural badVtf).width = false ∧
    ∃ st', open_dialog_cb .natural envBad st0 = .ok st' ∧
      Event.vlInitialize ∈ newEvents st0 st' ∧
      Event.vlImageLoad fileVtf.path true ∈ newEvents st0 st' ∧
      st'.image = .pixbuf
        { data := 8192, colorspace := .rgb, has_alpha := false, bits_per_sample := 8,
          width := 3, height := 2, rowstride := 9 } ∧
      st'.image ≠ st0.image := by
  refine ⟨by decide, by decide, by decide, _, rfl, by decide, by decide, rfl, by decide⟩

/-- C3, amended. The callback validates nothing in the header: on a `.vtf`
file whose contents are at least as long as the record, whatever the
signature, the width and the height, the copy of the header reads only
indices below the length of the contents and the callback goes on to
initialise the library, load the file, allocate and convert; when the
conversion succeeds the widget is given the pixbuf described by the header. -/
theorem C3_no_header_validation (L : Layout) (env : Env) (st : State) (gfile : GFile)
    (contents : List Byte) (pre : List Char)
    (hd : env.dialog = some gfile) (hc : gfile.contents = some contents)
    (hb : gfile.basename = pre ++ dotVtf)
    (hsize : sizeofVTFHEADER L ≤ contents.length) :
    (∀ i ∈ headerReadIndices L, i < contents.length) ∧
    ∃ st', open_dialog_cb L env st = .ok st' ∧
      Event.vlInitialize ∈ newEvents st st' ∧
      Event.vlImageLoad gfile.path env.lib.loadOk ∈ newEvents st st' ∧
      Event.malloc (vlImageComputeImageSize env.lib.width env.lib.height) env.mallocPtr
        ∈ newEvents st st' ∧
      Event.vlImageConvert env.lib.data env.mallocPtr env.lib.width env.lib.height
        env.lib.format env.lib.converted.isSome ∈ newEvents st st' ∧
      (∀ bytes, env.lib.converted = some bytes →
        st'.image = .pixbuf (headerPixbuf L env contents)) := by
  have hrun := open_dialog_cb_vtf L env st gfile contents pre hd hc hb
  have hsize1 : sizeofVTFHEADER L ≤ contents.length + 1 := by omega
  refine ⟨?_, ?_⟩
  · intro i hi
    have : i < sizeofVTFHEADER L := by simpa [headerReadIndices] using hi
    omega
  · cases hconv : env.lib.converted with
    | none =>
      refine ⟨_, hrun.trans (vtfBranch_convert_fails L env st gfile contents hsize1 hconv),
        ?_, ?_, ?_, ?_, ?_⟩
      · simp [newEvents, vtfPrelude]
      · simp [newEvents, vtfPrelude]
      · simp [newEvents, vtfPrelude]
      · simp [newEvents, vtfPrelude, hconv]
      · intro bytes hb2; cases hb2
    | some bytes =>
      refine ⟨_, hrun.trans
        (vtfBranch_convert_succeeds L env st gfile contents bytes hsize1 hconv),
        ?_, ?_, ?_, ?_, ?_⟩
      · simp [newEvents, vtfPrelude]
      · simp [newEvents, vtfPrelude]
      · simp [newEvents, vtfPrelude]
      · simp [newEvents, vtfPrelude, hconv]
      · intro _ _; rfl

/-- Witness of C3 amended, on the malformed file `badVtf`. -/
theorem C3_no_header_validation_witness :
    specHeaderValid badVtf = false ∧
    ∃ st', open_dialog_cb .packed envBad st0 = .ok st' ∧
      Event.vlInitialize ∈ newEvents st0 st' ∧
      st'.image = .pixbuf (headerPixbuf .packed envBad badVtf) :=
  let ⟨st', h1, h2, _, _, _, h6⟩ := (C3_no_header_validation .packed envBad st0
    { fileVtf with contents := some badVtf } badVtf ['a'] rfl rfl rfl (by decide)).2
  ⟨by decide, st', h1, h2, h6 _ rfl⟩

/-- C4. Without a packing pragma the declaration is laid out with natural
alignment: the members up to `mipmapCount` are at the offsets of the file
format, but `lowResImageFormat` is at 60 (not 57), `lowResImageWidth` at 64,
`lowResImageHeight` at 65, `depth` at 66, `numResources` at 72, four bytes of
the record are implicit padding and its size is 84, while the packed layout
gives the offsets of the file format, no implicit padding and 80 bytes.  On
the sample file, whose `lowResImageFormat` is 13 at bytes 57-60, the member
of the overlaid record holds the bytes 60-63 instead, and an 80-byte file
holding just the header is read past its bytes. -/
theorem C4_natural_layout_differs :
    (∀ f ∈ fieldsBeforeLowRes, offsetOf .natural f = specOffset f) ∧
    offsetOf .natural .lowResImageFormat = 60 ∧
    specOffset .lowResImageFormat = 57 ∧
    offsetOf .natural .lowResImageWidth = 64 ∧
    offsetOf .natural .lowResImageHeight = 65 ∧
    offsetOf .natural .depth = 66 ∧
    offsetOf .natural .numResources = 72 ∧
    sizeofVTFHEADER .natural = 84 ∧
    implicitPadding .natural = 4 ∧
    (∀ f, offsetOf .packed f = specOffset f) ∧
    sizeofVTFHEADER .packed = 80 ∧
    implicitPadding .packed = 0 ∧
    u32le sampleVtf 57 = 13 ∧
    (decodeVTFHEADER .packed sampleVtf).lowResImageFormat = 13 ∧
    (decodeVTFHEADER .natural sampleVtf).lowResImageFormat = 16909312 ∧
    open_dialog_cb .natural
      { envVtf with dialog := some { fileVtf with contents := some (sampleVtf.take 80) } }
      st0 = .error .readOutOfBounds := by
  refine ⟨by decide, by decide, by decide, by decide, by decide, by decide, by decide,
    by decide, by decide, ?_, by decide, by decide, by decide, by decide, by decide, rfl⟩
  intro f
  cases f <;> decide

/-! ## The size of the destination buffer -/

/-- C9, counterexample. The header of `a.vtf` says 4 by 2 and the library
reports 1 by 1: 3 bytes are allocated, and the pixbuf handed to the widget
describes 4 * 2 * 3 = 24 bytes of them in rows of 12. -/
theorem C9_counterexample :
    ∃ st' pb, open_dialog_cb .natural envMismatch st0 = .ok st' ∧
      st'.image = .pixbuf pb ∧
      Event.malloc 3 pb.data ∈ newEvents st0 st' ∧
      (newEvents st0 st').filter Event.isMalloc = [.malloc 3 pb.data] ∧
      pb.width * pb.height * 3 = 24 ∧
      3 < pb.rowstride * pb.height := by
  refine ⟨_, _, rfl, rfl, by decide, by decide, by decide, by decide⟩

/-- C9, amended. When the library reports the width and the height of the
file header and three times their product fits the library's 32-bit size,
the buffer allocated for a successful decode has width * height * 3 bytes for
the width and height handed to the display layer, which is the extent
row stride * height that the display layer reads. -/
theorem C9_buffer_size_when_dimensions_agree (L : Layout) (env : Env) (st : State)
    (gfile : GFile) (contents bytes : List Byte) (pre : List Char)
    (hd : env.dialog = some gfile) (hc : gfile.contents = some contents)
    (hb : gfile.basename = pre ++ dotVtf)
    (hsize : sizeofVTFHEADER L ≤ contents.length + 1)
    (hconv : env.lib.converted = some bytes)
    (hw : env.lib.width = (decodeVTFHEADER L contents).width)
    (hh : env.lib.height = (decodeVTFHEADER L contents).height)
    (hfit : 3 * env.lib.width * env.lib.height < 2 ^ 32) :
    ∃ st' pb size, open_dialog_cb L env st = .ok st' ∧
      st'.image = .pixbuf pb ∧
      (newEvents st st').filter Event.isMalloc = [.malloc size pb.data] ∧
      size = pb.width * pb.height * 3 ∧
      pb.rowstride * pb.height = size := by
  refine ⟨_, headerPixbuf L env contents,
    vlImageComputeImageSize env.lib.width env.lib.height,
    (open_dialog_cb_vtf L env st gfile contents pre hd hc hb).trans
      (vtfBranch_convert_succeeds L env st gfile contents bytes hsize hconv),
    rfl, ?_, ?_, ?_⟩
  · simp [newEvents, vtfPrelude, headerPixbuf, Event.isMalloc]
  · show vlImageComputeImageSize env.lib.width env.lib.height =
      (decodeVTFHEADER L contents).width * (decodeVTFHEADER L contents).height * 3
    rw [vlImageComputeImageSize, Nat.mod_eq_of_lt hfit, hw, hh]
    ring
  · show 3 * (decodeVTFHEADER L contents).width * (decodeVTFHEADER L contents).height =
      vlImageComputeImageSize env.lib.width env.lib.height
    rw [vlImageComputeImageSize, Nat.mod_eq_of_lt hfit, hw, hh]

/-- Witness of C9 amended: `a.vtf`, 4 by 2, with a library that reports 4 by
2; 24 bytes are allocated. -/
theorem C9_buffer_size_when_dimensions_agree_witness :
    ∃ st' pb, open_dialog_cb .natural envVtf st0 = .ok st' ∧ st'.image = .pixbuf pb ∧
      (newEvents st0 st').filter Event.isMalloc = [.malloc (pb.width * pb.height * 3) pb.data] :=
  let ⟨st', pb, _, h1, h2, h3, h4, _⟩ := C9_buffer_size_when_dimensions_agree .natural envVtf st0
    fileVtf sampleVtf (List.replicate 24 255) ['a'] rfl rfl rfl (by decide) rfl
    (by decide) (by decide) (by decide)
  ⟨st', pb, h1, h2, h4 ▸ h3⟩

theorem vlImageComputeImageSize_wraps :
    (decodeVTFHEADER .natural hugeVtf).width = 65535 ∧
    (decodeVTFHEADER .natural hugeVtf).height = 65535 ∧
    vlImageComputeImageSize 65535 65535 = 4294574083 ∧
    vlImageComputeImageSize 65535 65535 < 3 * 65535 * 65535 := by
  refine ⟨by decide, by decide, by decide, by decide⟩

/-! ## The members the callback reads -/

theorem u16le_eq_bytes (contents : List Byte) (off : Nat) (h : off + 1 < contents.length) :
    u16le contents off =
      (contents.get ⟨off, by omega⟩).val + 256 * (contents.get ⟨off + 1, h⟩).val := by
  have h0 : off < contents.length := by omega
  simp [u16le, readLE, byteAt, List.getD_eq_getElem, h, h0]

theorem pixbuf_of_run (L : Layout) (env : Env) (st st' : State) (gfile : GFile)
    (contents : List Byte) (pb : Pixbuf)
    (hd : env.dialog = some gfile) (hc : gfile.contents = some contents)
    (hrun : open_dialog_cb L env st = .ok st')
    (hpb : Event.gdk_pixbuf_new_from_data pb ∈ newEvents st st') :
    pb = headerPixbuf L env contents := by
  simp only [open_dialog_cb, hd, hc] at hrun
  cases ht : extensionTest gfile.basename with
  | error e => simp [ht] at hrun
  | ok r =>
    simp only [ht] at hrun
    by_cases hr : r = 0
    · simp only [hr, if_true] at hrun
      by_cases hlt : contents.length + 1 < sizeofVTFHEADER L
      · simp [vtfBranch, hlt] at hrun
      · have hsize : sizeofVTFHEADER L ≤ contents.length + 1 := by omega
        cases hconv : env.lib.converted with
        | none =>
          rw [vtfBranch_convert_fails L env st gfile contents hsize hconv] at hrun
          cases hrun
          simp [newEvents, vtfPrelude] at hpb
        | some bytes =>
          rw [vtfBranch_convert_succeeds L env st gfile contents bytes hsize hconv] at hrun
          cases hrun
          simpa [newEvents, vtfPrelude] using hpb
    · simp only [hr, if_false, genericBranch] at hrun
      cases hrun
      simp [newEvents] at hpb

/-- C10. The members the callback reads do not depend on the layout: under
the packed and under the naturally aligned layout `signature`, `version[0]`,
`version[1]`, `headerSize`, `width` and `height` are at 0, 4, 8, 12, 16 and
18; every member declared before `lowResImageFormat` has the same offset in
both, `lowResImageFormat` is at 57 packed and at 60 aligned, and the sizes
are 80 and 84.  So for contents of at least 20 bytes the header width and
height are the little-endian 16-bit values of bytes 16-17 and 18-19, and
these are the width and height of any pixbuf a run creates. -/
theorem C10_layout_independence (L : Layout) (contents : List Byte)
    (h : 20 ≤ contents.length) :
    (offsetOf L .signature = 0 ∧ offsetOf L .version = 4 ∧
      offsetOf L .version + 1 * CType.size .uint = 8 ∧ offsetOf L .headerSize = 12 ∧
      offsetOf L .width = 16 ∧ offsetOf L .height = 18) ∧
    (∀ f ∈ fieldsBeforeLowRes, offsetOf .packed f = offsetOf .natural f) ∧
    (offsetOf .packed .lowResImageFormat = 57 ∧ offsetOf .natural .lowResImageFormat = 60) ∧
    (sizeofVTFHEADER .packed = 80 ∧ sizeofVTFHEADER .natural = 84) ∧
    (decodeVTFHEADER L contents).width =
      (contents.get ⟨16, by omega⟩).val + 256 * (contents.get ⟨17, by omega⟩).val ∧
    (decodeVTFHEADER L contents).height =
      (contents.get ⟨18, by omega⟩).val + 256 * (contents.get ⟨19, by omega⟩).val ∧
    ∀ (env : Env) (st st' : State) (gfile : GFile) (pb : Pixbuf),
      env.dialog = some gfile → gfile.contents = some contents →
      open_dialog_cb L env st = .ok st' →
      Event.gdk_pixbuf_new_from_data pb ∈ newEvents st st' →
      pb.width = (contents.get ⟨16, by omega⟩).val + 256 * (contents.get ⟨17, by omega⟩).val ∧
      pb.height = (contents.get ⟨18, by omega⟩).val + 256 * (contents.get ⟨19, by omega⟩).val := by
  have hw : (decodeVTFHEADER L contents).width = u16le contents 16 := by cases L <;> rfl
  have hh : (decodeVTFHEADER L contents).height = u16le contents 18 := by cases L <;> rfl
  have hw2 := u16le_eq_bytes contents 16 (by omega)
  have hh2 := u16le_eq_bytes contents 18 (by omega)
  refine ⟨?_, by decide, by decide, by decide, hw.trans hw2, hh.trans hh2, ?_⟩
  · cases L <;> decide
  · intro env st st' gfile pb hd hc hrun hpb
    rw [pixbuf_of_run L env st st' gfile contents pb hd hc hrun hpb]
    exact ⟨hw.trans hw2, hh.trans hh2⟩

/-- Witness of C10 on the sample file under the naturally aligned layout. -/
theorem C10_layout_independence_witness :
    (decodeVTFHEADER .natural sampleVtf).width = 4 ∧
    (decodeVTFHEADER .natural sampleVtf).height = 2 :=
  let h := C10_layout_independence .natural sampleVtf (by decide)
  ⟨h.2.2.2.2.1.trans (by decide), h.2.2.2.2.2.1.trans (by decide)⟩

end Vteditor
